import Mathlib

/-!
Verification development for the Market_Basket_Analysis repository.

The repository is a multi-page analytics dashboard.  The computational
content embedded here, function by function from the Python sources:

* `customer.py` (`run_clv`): customer feature derivation (tenure, total
  spending, purchase frequency, profit margin, lifetime value), row
  dropping, model training/persistence dispatch, and the single-customer
  input form.
* `my_project-main/clv.py` (`run_clv_dashboard`): the same derivation with
  coercing date parsing and no row dropping.
* `marketbasket.py` (`generate_rules`, `run_marketbasket`): rare-item
  filtering and apriori association-rule mining with fixed thresholds.
* `sentiment.py` (`get_sentiment`): polarity-threshold sentiment labels.
* `main.py`: the credential store with login / sign-up / reset-password
  and the admin-panel delete operation.

Numeric columns are modelled as rationals; a missing value (pandas `NaN`)
is `none` in an `Option`.  Dates are day numbers (`ℤ`); "now" enters as an
explicit parameter.
-/

namespace MBA

/-- Round-half-to-even on rationals, the tie-breaking used by Python's
`round` and pandas `Series.round`. -/
def roundHalfEven (q : ℚ) : ℤ :=
  let f : ℤ := ⌊q⌋
  let r : ℚ := q - f
  if r < 1/2 then f
  else if 1/2 < r then f + 1
  else if f % 2 = 0 then f else f + 1

/-- `round(x, 2)`: round to two decimal places. -/
def round2 (q : ℚ) : ℚ := (roundHalfEven (q * 100) : ℚ) / 100

/-- A raw `Dt_Customer` cell: a parseable date (day number), a missing
cell (`NaN`), or an unparseable string. -/
inductive RawDate where
  | valid (d : ℤ)
  | missing
  | malformed
deriving DecidableEq

/-- A raw customer row: the columns `customer.py` and `clv.py` read.
Every numeric cell may be missing. -/
structure CustomerRow where
  Year_Birth : Option ℤ
  Dt_Customer : RawDate
  Income : Option ℚ
  Kidhome : Option ℚ
  Teenhome : Option ℚ
  Recency : Option ℚ
  MntWines : Option ℚ
  MntFruits : Option ℚ
  MntMeatProducts : Option ℚ
  MntFishProducts : Option ℚ
  MntSweetProducts : Option ℚ
  MntGoldProds : Option ℚ
  NumDealsPurchases : Option ℚ
  NumWebPurchases : Option ℚ
  NumCatalogPurchases : Option ℚ
  NumStorePurchases : Option ℚ
  AcceptedCmp1 : Option ℚ
  AcceptedCmp5 : Option ℚ
  Response : Option ℚ
deriving DecidableEq

/-- A derived customer row: the raw columns plus the parsed date and the
seven derived columns of `customer.py` lines 53-67 / `clv.py` lines 51-77. -/
structure DerivedRow where
  raw : CustomerRow
  Dt : Option ℤ
  Age : Option ℤ
  Customer_Tenure : Option ℤ
  Tenure_Years : Option ℚ
  Total_Spending : ℚ
  Purchase_Frequency : ℚ
  Profit_Margin : ℚ
  CLV : Option ℚ
deriving DecidableEq

/-- pandas `DataFrame.sum(axis=1)` with the default `skipna=True`: missing
cells are skipped, an all-missing row sums to `0`. -/
def optSum (l : List (Option ℚ)) : ℚ := (l.filterMap id).sum

/-- The six spend columns of `customer.py` line 59 / `clv.py` line 63,
summed as pandas does. -/
def spendSum (r : CustomerRow) : ℚ :=
  optSum [r.MntWines, r.MntFruits, r.MntMeatProducts, r.MntFishProducts,
    r.MntSweetProducts, r.MntGoldProds]

/-- The four purchase-count columns of `customer.py` line 62 /
`clv.py` line 69, summed as pandas does. -/
def purchaseSum (r : CustomerRow) : ℚ :=
  optSum [r.NumDealsPurchases, r.NumWebPurchases, r.NumCatalogPurchases,
    r.NumStorePurchases]

/-- Feature engineering on one row, `customer.py` lines 53-67 and
`clv.py` lines 57-77 (both compute the same formulas):
`Age = now.year - Year_Birth`, `Customer_Tenure = (now - Dt_Customer).days`,
`Tenure_Years = Customer_Tenure / 365`, `Total_Spending = sum(spend cols)`,
`Purchase_Frequency = sum(purchase cols)`,
`Profit_Margin = Total_Spending * 0.3`,
`CLV = round(Profit_Margin * Purchase_Frequency * Tenure_Years, 2)`.
`dt` is the already-parsed `Dt_Customer` value (`none` = `NaT`). -/
def deriveRow (nowDays nowYear : ℤ) (dt : Option ℤ) (r : CustomerRow) :
    DerivedRow :=
  let ts : ℚ := spendSum r
  let pf : ℚ := purchaseSum r
  let pm : ℚ := ts * (3/10)
  let tenure : Option ℤ := dt.map (fun d => nowDays - d)
  let ty : Option ℚ := tenure.map (fun n => (n : ℚ) / 365)
  { raw := r
    Dt := dt
    Age := r.Year_Birth.map (fun y => nowYear - y)
    Customer_Tenure := tenure
    Tenure_Years := ty
    Total_Spending := ts
    Purchase_Frequency := pf
    Profit_Margin := pm
    CLV := ty.map (fun t => round2 (pm * pf * t)) }

/-- `pd.to_datetime` without `errors` (used in `customer.py` line 53):
a `NaN` cell becomes `NaT`, an unparseable string raises. -/
def parseDateStrict : RawDate → Except Unit (Option ℤ)
  | .valid d => .ok (some d)
  | .missing => .ok none
  | .malformed => .error ()

/-- `pd.to_datetime(.., errors='coerce')` (used in `clv.py` line 52):
anything unparseable becomes `NaT`. -/
def parseDateCoerce : RawDate → Option ℤ
  | .valid d => some d
  | _ => none

/-- `df.dropna()` completeness test for one derived row: every column of
the derived frame (raw and derived) is present. -/
def rowComplete (d : DerivedRow) : Bool :=
  d.raw.Year_Birth.isSome && d.raw.Income.isSome && d.raw.Kidhome.isSome &&
  d.raw.Teenhome.isSome && d.raw.Recency.isSome && d.raw.MntWines.isSome &&
  d.raw.MntFruits.isSome && d.raw.MntMeatProducts.isSome &&
  d.raw.MntFishProducts.isSome && d.raw.MntSweetProducts.isSome &&
  d.raw.MntGoldProds.isSome && d.raw.NumDealsPurchases.isSome &&
  d.raw.NumWebPurchases.isSome && d.raw.NumCatalogPurchases.isSome &&
  d.raw.NumStorePurchases.isSome && d.raw.AcceptedCmp1.isSome &&
  d.raw.AcceptedCmp5.isSome && d.raw.Response.isSome &&
  d.Dt.isSome && d.Age.isSome && d.Customer_Tenure.isSome &&
  d.Tenure_Years.isSome && d.CLV.isSome

/-- All raw numeric cells of a row are present. -/
def rawComplete (r : CustomerRow) : Bool :=
  r.Year_Birth.isSome && r.Income.isSome && r.Kidhome.isSome &&
  r.Teenhome.isSome && r.Recency.isSome && r.MntWines.isSome &&
  r.MntFruits.isSome && r.MntMeatProducts.isSome &&
  r.MntFishProducts.isSome && r.MntSweetProducts.isSome &&
  r.MntGoldProds.isSome && r.NumDealsPurchases.isSome &&
  r.NumWebPurchases.isSome && r.NumCatalogPurchases.isSome &&
  r.NumStorePurchases.isSome && r.AcceptedCmp1.isSome &&
  r.AcceptedCmp5.isSome && r.Response.isSome

/-- Strict parsing of the date column followed by per-row derivation:
the first unparseable date aborts the whole computation, as
`pd.to_datetime` does on the column. -/
def deriveAllStrict (nowDays nowYear : ℤ) :
    List CustomerRow → Except Unit (List DerivedRow)
  | [] => .ok []
  | r :: rs =>
    match parseDateStrict r.Dt_Customer with
    | .error e => .error e
    | .ok dt =>
      match deriveAllStrict nowDays nowYear rs with
      | .error e => .error e
      | .ok rest => .ok (deriveRow nowDays nowYear dt r :: rest)

/-- The derivation part of `customer.py run_clv` (lines 50-68): strict date
parsing (an unparseable date aborts the page with an exception), per-row
derivation, then `df.dropna(inplace=True)`. -/
def run_clv_derive (nowDays nowYear : ℤ) (rows : List CustomerRow) :
    Except Unit (List DerivedRow) :=
  (deriveAllStrict nowDays nowYear rows).map (List.filter rowComplete)

/-- The derivation part of `clv.py run_clv_dashboard` (lines 48-77):
coercing date parsing, per-row derivation, and no row dropping. -/
def run_clv_dashboard_derive (nowDays nowYear : ℤ)
    (rows : List CustomerRow) : List DerivedRow :=
  rows.map (fun r => deriveRow nowDays nowYear (parseDateCoerce r.Dt_Customer) r)

/-- A fully populated concrete row realising the spec's worked example:
spend columns summing to 1000 and purchase-count columns summing to 5. -/
def exampleRow : CustomerRow :=
  { Year_Birth := some 1990
    Dt_Customer := .valid 0
    Income := some 50000
    Kidhome := some 0
    Teenhome := some 1
    Recency := some 10
    MntWines := some 500
    MntFruits := some 100
    MntMeatProducts := some 200
    MntFishProducts := some 100
    MntSweetProducts := some 50
    MntGoldProds := some 50
    NumDealsPurchases := some 1
    NumWebPurchases := some 2
    NumCatalogPurchases := some 1
    NumStorePurchases := some 1
    AcceptedCmp1 := some 0
    AcceptedCmp5 := some 1
    Response := some 0 }

/-- A row whose enrollment date cell is an unparseable string; all other
cells are present. -/
def badDateRow : CustomerRow :=
  { exampleRow with Dt_Customer := .malformed }

lemma deriveAllStrict_mem (nowDays nowYear : ℤ) :
    ∀ (rows : List CustomerRow) (l : List DerivedRow),
      deriveAllStrict nowDays nowYear rows = .ok l →
      ∀ d ∈ l, ∃ r dt, d = deriveRow nowDays nowYear dt r := by
  intro rows
  induction rows with
  | nil =>
    intro l h d hd
    simp only [deriveAllStrict] at h
    cases h
    simp at hd
  | cons r rs ih =>
    intro l h d hd
    simp only [deriveAllStrict] at h
    cases hp : parseDateStrict r.Dt_Customer with
    | error e => rw [hp] at h; cases h
    | ok dt =>
      rw [hp] at h
      cases hrest : deriveAllStrict nowDays nowYear rs with
      | error e => rw [hrest] at h; cases h
      | ok rest =>
        rw [hrest] at h
        cases h
        rcases List.mem_cons.mp hd with h1 | h2
        · exact ⟨r, dt, h1⟩
        · exact ih rest hrest d h2

lemma deriveRow_CLV_eq (nowDays nowYear : ℤ) (r : CustomerRow) (d : ℤ) :
    (deriveRow nowDays nowYear (some d) r).CLV
      = some (round2 (spendSum r * (3/10) * purchaseSum r *
          (((nowDays - d : ℤ) : ℚ) / 365))) := rfl

lemma exampleRow_spendSum : spendSum exampleRow = 1000 := by
  norm_num [spendSum, exampleRow, optSum, List.filterMap_cons]

lemma exampleRow_purchaseSum : purchaseSum exampleRow = 5 := by
  norm_num [purchaseSum, exampleRow, optSum, List.filterMap_cons]

/-- **C1.** For every customer row with all required raw inputs present
and a parsed enrollment date, the derived CLV equals
`round(0.3 * (sum of the six spend columns) * (sum of the four
purchase-count columns) * tenure_years, 2)`; in particular spends summing
to 1000, purchase counts summing to 5 and a tenure of exactly two years
(730 days) give profit margin 300 and CLV 3000.00. -/
theorem clv_formula (nowDays nowYear : ℤ) (r : CustomerRow) (d : ℤ)
    (_hr : rawComplete r = true) :
    (deriveRow nowDays nowYear (some d) r).CLV
      = some (round2 ((3/10) * spendSum r * purchaseSum r *
          (((nowDays - d : ℤ) : ℚ) / 365))) ∧
    (spendSum r = 1000 → purchaseSum r = 5 → nowDays - d = 730 →
      (deriveRow nowDays nowYear (some d) r).Profit_Margin = 300 ∧
      (deriveRow nowDays nowYear (some d) r).CLV = some 3000) := by
  constructor
  · rw [deriveRow_CLV_eq]
    congr 2
    ring
  · intro hs hp hd
    constructor
    · show spendSum r * (3/10) = 300
      rw [hs]; norm_num
    · rw [deriveRow_CLV_eq, hs, hp, hd]
      norm_num [round2, roundHalfEven]

/-- Witness for `clv_formula` at the spec's worked example. -/
theorem clv_formula_witness :
    rawComplete exampleRow = true ∧
    (deriveRow 730 2025 (some 0) exampleRow).Profit_Margin = 300 ∧
    (deriveRow 730 2025 (some 0) exampleRow).CLV = some 3000 :=
  ⟨rfl,
   (clv_formula 730 2025 exampleRow 0 rfl).2
     exampleRow_spendSum exampleRow_purchaseSum (by decide)⟩

/-- **C2 (amended).** In the CLV prediction page, rows are dropped after
derivation exactly when any field (raw or derived) is missing, so every
row of the output table is complete; a missing enrollment date yields a
missing derived tenure and so drops the row. (The dashboard page performs
no such drop; see the counterexample.) -/
theorem run_clv_no_nulls (nowDays nowYear : ℤ) (rows : List CustomerRow)
    (out : List DerivedRow)
    (h : run_clv_derive nowDays nowYear rows = .ok out) :
    ∀ d ∈ out, rowComplete d = true := by
  unfold run_clv_derive at h
  cases hm : deriveAllStrict nowDays nowYear rows with
  | error e => rw [hm] at h; cases h
  | ok l =>
    rw [hm] at h
    simp only [Except.map] at h
    cases h
    intro d hd
    exact (List.mem_filter.mp hd).2

/-- Witness for `run_clv_no_nulls` on a concrete two-row table (one
complete row, one with a missing date that gets dropped). -/
theorem run_clv_no_nulls_witness :
    rowComplete (deriveRow 730 2025 (some 0) exampleRow) = true :=
  run_clv_no_nulls 730 2025
    [exampleRow, { exampleRow with Dt_Customer := .missing }]
    [deriveRow 730 2025 (some 0) exampleRow] rfl
    (deriveRow 730 2025 (some 0) exampleRow) (List.mem_singleton.mpr rfl)

/-- **C2 counterexample.** The dashboard page does not drop incomplete
rows: a row whose enrollment date is unparseable is coerced to a missing
date, derives a missing tenure and missing CLV, and still appears in the
output table seen by the caller — refuting the claim for the dashboard
page. -/
theorem dashboard_keeps_null_row :
    ∃ d ∈ run_clv_dashboard_derive 730 2025 [badDateRow],
      d.CLV = none ∧ d.Tenure_Years = none ∧ rowComplete d = false :=
  ⟨deriveRow 730 2025 none badDateRow, List.mem_singleton.mpr rfl,
   rfl, rfl, rfl⟩

/-- **C7.** Tenure in years equals tenure in days divided by 365, exactly:
for the shared per-row derivation, for every row of the dashboard output,
and for every row of the prediction-page output. -/
theorem tenure_years_div_365 (nowDays nowYear : ℤ) :
    (∀ dt r, (deriveRow nowDays nowYear dt r).Tenure_Years
        = (deriveRow nowDays nowYear dt r).Customer_Tenure.map
            (fun n => (n : ℚ) / 365)) ∧
    (∀ rows, ∀ d ∈ run_clv_dashboard_derive nowDays nowYear rows,
        d.Tenure_Years = d.Customer_Tenure.map (fun n => (n : ℚ) / 365)) ∧
    (∀ rows out, run_clv_derive nowDays nowYear rows = .ok out →
        ∀ d ∈ out, d.Tenure_Years
          = d.Customer_Tenure.map (fun n => (n : ℚ) / 365)) := by
  have base : ∀ dt r, (deriveRow nowDays nowYear dt r).Tenure_Years
      = (deriveRow nowDays nowYear dt r).Customer_Tenure.map
          (fun n => (n : ℚ) / 365) := by
    intro dt r; cases dt <;> rfl
  refine ⟨base, ?_, ?_⟩
  · intro rows d hd
    rcases List.mem_map.mp hd with ⟨r, _, rfl⟩
    exact base _ r
  · intro rows out h d hd
    unfold run_clv_derive at h
    cases hm : deriveAllStrict nowDays nowYear rows with
    | error e => rw [hm] at h; cases h
    | ok l =>
      rw [hm] at h
      simp only [Except.map] at h
      cases h
      rcases deriveAllStrict_mem nowDays nowYear rows l hm d
        (List.mem_filter.mp hd).1 with ⟨r, dt, rfl⟩
      exact base dt r

/-- Witness for `tenure_years_div_365` on the prediction-page branch at a
concrete table. -/
theorem tenure_years_div_365_witness :
    (deriveRow 730 2025 (some 0) exampleRow).Tenure_Years
      = (deriveRow 730 2025 (some 0) exampleRow).Customer_Tenure.map
          (fun n => (n : ℚ) / 365) :=
  (tenure_years_div_365 730 2025).2.2 [exampleRow]
    [deriveRow 730 2025 (some 0) exampleRow] rfl
    (deriveRow 730 2025 (some 0) exampleRow) (List.mem_singleton.mpr rfl)

/-! ## Sentiment scorer (`sentiment.py`, `get_sentiment`, lines 54-66) -/

/-- The three sentiment labels. -/
inductive Sentiment where
  | Positive
  | Negative
  | Neutral
deriving DecidableEq

/-- `get_sentiment` from `sentiment.py` lines 55-64.  TextBlob's polarity
computation is an external library call, modelled as an explicit function
argument `polarity : String → ℚ`; the input is `none` for a missing
(`NaN`) text cell. -/
def get_sentiment (polarity : String → ℚ) (text : Option String) :
    Sentiment :=
  match text with
  | none => .Neutral
  | some t =>
    if polarity t > 1/10 then .Positive
    else if polarity t < -(1/10) then .Negative
    else .Neutral

/-- **C4.** The sentiment scorer is a total deterministic function of the
text: missing text is Neutral; polarity above 0.1 is Positive, below -0.1
is Negative, and anything in the closed interval [-0.1, 0.1] — including
exactly 0.1 and exactly -0.1 — is Neutral; equal texts get equal labels. -/
theorem get_sentiment_spec (polarity : String → ℚ) (t u : String) :
    get_sentiment polarity none = .Neutral ∧
    (polarity t > 1/10 → get_sentiment polarity (some t) = .Positive) ∧
    (polarity t < -(1/10) → get_sentiment polarity (some t) = .Negative) ∧
    (-(1/10) ≤ polarity t → polarity t ≤ 1/10 →
      get_sentiment polarity (some t) = .Neutral) ∧
    (polarity t = 1/10 → get_sentiment polarity (some t) = .Neutral) ∧
    (polarity t = -(1/10) → get_sentiment polarity (some t) = .Neutral) ∧
    (t = u → get_sentiment polarity (some t) = get_sentiment polarity (some u)) := by
  refine ⟨rfl, ?_, ?_, ?_, ?_, ?_, ?_⟩
  · intro h
    simp only [get_sentiment]
    rw [if_pos h]
  · intro h
    simp only [get_sentiment]
    rw [if_neg (by linarith), if_pos h]
  · intro h1 h2
    simp only [get_sentiment]
    rw [if_neg (by linarith), if_neg (by linarith)]
  · intro h
    simp only [get_sentiment]
    rw [if_neg (by rw [h]; exact lt_irrefl _),
        if_neg (by rw [h]; norm_num)]
  · intro h
    simp only [get_sentiment]
    rw [if_neg (by rw [h]; norm_num),
        if_neg (by rw [h]; exact lt_irrefl _)]
  · intro h
    rw [h]

lemma polHalf_val : ∀ s : String, (fun _ : String => (1:ℚ)/10) s = 1/10 :=
  fun _ => rfl

/-- Witness for `get_sentiment_spec`: a polarity of exactly 0.1 labels the
text Neutral. -/
theorem get_sentiment_spec_witness :
    get_sentiment (fun _ => (1:ℚ)/10) (some "ok") = .Neutral :=
  (get_sentiment_spec (fun _ => (1:ℚ)/10) "ok" "ok").2.2.2.2.1
    (polHalf_val "ok")

/-! ## Rare-item filtering (`marketbasket.py`, `run_marketbasket`,
lines 66-68) -/

/-- One row of the transaction file: an invoice identifier and an item
name. -/
structure TxRow where
  invoice : ℕ
  item : String
deriving DecidableEq

/-- `df[product_col].value_counts()[item]`: how many rows of the dataset
carry this item name. -/
def itemCount (rows : List TxRow) (it : String) : ℕ :=
  (rows.filter (fun t => t.item = it)).length

/-- `marketbasket.py` lines 66-68: keep only the rows whose item occurs
strictly more than 50 times in the whole dataset. -/
def filterCommonItems (rows : List TxRow) : List TxRow :=
  rows.filter (fun t => 50 < itemCount rows t.item)

/-- **C8.** A transaction row survives the rare-item filter iff its item
name occurs strictly more than 50 times in the dataset: a row whose item
occurs exactly 50 times is excluded, one whose item occurs 51 times is
kept. -/
theorem filterCommonItems_spec (rows : List TxRow) (t : TxRow) :
    (t ∈ filterCommonItems rows ↔ t ∈ rows ∧ 50 < itemCount rows t.item) ∧
    (itemCount rows t.item = 50 → t ∉ filterCommonItems rows) ∧
    (t ∈ rows → itemCount rows t.item = 51 → t ∈ filterCommonItems rows) := by
  have base : t ∈ filterCommonItems rows ↔
      t ∈ rows ∧ 50 < itemCount rows t.item := by
    unfold filterCommonItems
    rw [List.mem_filter]
    simp
  refine ⟨base, ?_, ?_⟩
  · intro h50 hmem
    have := (base.mp hmem).2
    omega
  · intro hmem h51
    exact base.mpr ⟨hmem, by omega⟩

/-- Witness for `filterCommonItems_spec`: a dataset with one item
occurring 51 times keeps its rows. -/
theorem filterCommonItems_spec_witness :
    ⟨0, "bread"⟩ ∈ filterCommonItems
      ((List.range 51).map (fun i => (⟨i, "bread"⟩ : TxRow))) :=
  ((filterCommonItems_spec
      ((List.range 51).map (fun i => (⟨i, "bread"⟩ : TxRow)))
      ⟨0, "bread"⟩).2.2) (by decide) (by decide)

/-! ## Session/auth shell (`main.py`, lines 66-98) -/

/-- Python `str.strip()`: remove leading and trailing whitespace. -/
def pyStrip (s : String) : String :=
  ⟨((s.data.dropWhile Char.isWhitespace).reverse.dropWhile
      Char.isWhitespace).reverse⟩

/-- Python `str.strip() == ""`: the field is blank (empty or
whitespace-only). -/
def isBlank (s : String) : Bool := pyStrip s = ""

/-- The session state of `main.py`: the credential store (`users.json`,
an insertion-ordered mapping username → plaintext password) plus the
session flags. -/
structure AuthState where
  users : List (String × String)
  authenticated : Bool
  username : String
deriving DecidableEq

/-- Sign-up (`main.py` lines 77-86): blank field → warning; existing
username → duplicate error; otherwise the mapping is added and saved.
Returns the new state and whether the account was created. -/
def signUp (u p : String) (st : AuthState) : AuthState × Bool :=
  if isBlank u || isBlank p then (st, false)
  else if (st.users.lookup u).isSome then (st, false)
  else ({ st with users := st.users ++ [(u, p)] }, true)

/-- Login (`main.py` lines 66-75): blank field → warning; username
present with exactly matching password → authenticate; otherwise error.
Returns the new state and whether login succeeded. -/
def login (u p : String) (st : AuthState) : AuthState × Bool :=
  if isBlank u || isBlank p then (st, false)
  else
    match st.users.lookup u with
    | some pw =>
      if pw = p then ({ st with authenticated := true, username := u }, true)
      else (st, false)
    | none => (st, false)

/-- Reset password (`main.py` lines 88-98): blank field → warning;
username present → overwrite its password and save; otherwise
"Username not found". -/
def resetPassword (u np : String) (st : AuthState) : AuthState × Bool :=
  if isBlank u || isBlank np then (st, false)
  else if (st.users.lookup u).isSome then
    ({ st with users :=
        st.users.map (fun kv => if kv.1 = u then (u, np) else kv) }, true)
  else (st, false)

/-- **C6.** Sign-up fails exactly when a field is blank or the username
already exists; reset fails exactly when a field is blank or the username
does not pre-exist; every failure (sign-up, reset, or a login credential
mismatch) leaves the credential store and session state unchanged. -/
theorem auth_spec (u p : String) (st : AuthState) :
    ((signUp u p st).2 = false ↔
      isBlank u = true ∨ isBlank p = true ∨ (st.users.lookup u).isSome) ∧
    ((signUp u p st).2 = false → (signUp u p st).1 = st) ∧
    ((signUp u p st).2 = true →
      (signUp u p st).1.users = st.users ++ [(u, p)]) ∧
    ((resetPassword u p st).2 = false ↔
      isBlank u = true ∨ isBlank p = true ∨ (st.users.lookup u) = none) ∧
    ((resetPassword u p st).2 = false → (resetPassword u p st).1 = st) ∧
    ((login u p st).2 = false → (login u p st).1 = st) := by
  unfold signUp resetPassword login
  refine ⟨?_, ?_, ?_, ?_, ?_, ?_⟩
  · constructor
    · intro h
      by_cases hb : isBlank u || isBlank p
      · rcases Bool.or_eq_true_iff.mp hb with h1 | h1
        · exact Or.inl h1
        · exact Or.inr (Or.inl h1)
      · rw [if_neg hb] at h
        by_cases hl : (st.users.lookup u).isSome
        · exact Or.inr (Or.inr hl)
        · rw [if_neg hl] at h; cases h
    · intro h
      by_cases hb : isBlank u || isBlank p
      · rw [if_pos hb]
      · rw [if_neg hb]
        have hl : (st.users.lookup u).isSome := by
          rcases h with h1 | h1 | h1

          · exact absurd (Bool.or_eq_true_iff.mpr (Or.inl h1)) hb
          · exact absurd (Bool.or_eq_true_iff.mpr (Or.inr h1)) hb
          · exact h1
        rw [if_pos hl]
  · intro h
    by_cases hb : isBlank u || isBlank p
    · rw [if_pos hb]
    · rw [if_neg hb] at h ⊢
      by_cases hl : (st.users.lookup u).isSome
      · rw [if_pos hl]
      · rw [if_neg hl] at h; cases h
  · intro h
    by_cases hb : isBlank u || isBlank p
    · rw [if_pos hb] at h; cases h
    · rw [if_neg hb] at h ⊢
      by_cases hl : (st.users.lookup u).isSome
      · rw [if_pos hl] at h; cases h
      · rw [if_neg hl]
  · constructor
    · intro h
      by_cases hb : isBlank u || isBlank p
      · rcases Bool.or_eq_true_iff.mp hb with h1 | h1
        · exact Or.inl h1
        · exact Or.inr (Or.inl h1)
      · rw [if_neg hb] at h
        by_cases hl : (st.users.lookup u).isSome
        · rw [if_pos hl] at h; cases h
        · exact Or.inr (Or.inr (Option.not_isSome_iff_eq_none.mp
            (fun hs => hl hs)))
    · intro h
      by_cases hb : isBlank u || isBlank p
      · rw [if_pos hb]
      · rw [if_neg hb]
        rcases h with h1 | h1 | h1
        · exact absurd (Bool.or_eq_true_iff.mpr (Or.inl h1)) hb
        · exact absurd (Bool.or_eq_true_iff.mpr (Or.inr h1)) hb
        · rw [if_neg (by simp [h1])]
  · intro h
    by_cases hb : isBlank u || isBlank p
    · rw [if_pos hb]
    · rw [if_neg hb] at h ⊢
      by_cases hl : (st.users.lookup u).isSome
      · rw [if_pos hl] at h; cases h
      · rw [if_neg hl]
  · intro h
    by_cases hb : isBlank u || isBlank p
    · rw [if_pos hb]
    · rw [if_neg hb] at h ⊢
      cases hl : st.users.lookup u with
      | none => rfl
      | some pw =>
        rw [hl] at h
        dsimp only at h ⊢
        by_cases hp : pw = p
        · rw [if_pos hp] at h; cases h
        · rw [if_neg hp]

/-- The spec example: from an empty store, sign-up as "alice" succeeds
and adds the mapping; a second sign-up as "alice" fails as a duplicate
and leaves the store unchanged.  Witness for `auth_spec`. -/
theorem auth_spec_witness :
    (signUp "alice" "pw1" ⟨[], false, ""⟩).2 = true ∧
    (signUp "alice" "pw1" ⟨[], false, ""⟩).1.users = [("alice", "pw1")] ∧
    (signUp "alice" "pw2" ⟨[("alice", "pw1")], false, ""⟩).2 = false ∧
    (signUp "alice" "pw2" ⟨[("alice", "pw1")], false, ""⟩).1
      = ⟨[("alice", "pw1")], false, ""⟩ :=
  ⟨by decide,
   (auth_spec "alice" "pw1" ⟨[], false, ""⟩).2.2.1 (by decide),
   (auth_spec "alice" "pw2" ⟨[("alice", "pw1")], false, ""⟩).1.mpr
     (Or.inr (Or.inr (by decide))),
   (auth_spec "alice" "pw2" ⟨[("alice", "pw1")], false, ""⟩).2.1
     (by decide)⟩

/-! ## Admin panel (`main.py`, lines 131-144) -/

/-- `main.py` line 138: the users offered for deletion — every stored
username except `"admin"`. -/
def deletableUsers (users : List (String × String)) : List String :=
  (users.map Prod.fst).filter (fun u => u ≠ "admin")

/-- One admin-panel delete (`main.py` lines 138-143): the selectbox only
offers `deletableUsers`, and `users.pop(delete_user, None)` removes the
selected key; a name not offered cannot be deleted. -/
def deleteUser (users : List (String × String)) (u : String) :
    List (String × String) :=
  if u ∈ deletableUsers users then users.filter (fun kv => kv.1 ≠ u)
  else users

lemma lookup_filter_ne (u : String) (hu : u ≠ "admin") :
    ∀ users : List (String × String),
      (users.filter (fun kv => kv.1 ≠ u)).lookup "admin"
        = users.lookup "admin" := by
  intro users
  induction users with
  | nil => rfl
  | cons kv rest ih =>
    rw [List.filter_cons]
    by_cases hk : kv.1 = u
    · rw [if_neg (by simp [hk])]
      rw [ih]
      have hbeq : ("admin" == kv.1) = false := by
        rw [hk]
        exact beq_eq_false_iff_ne.mpr (fun h => hu h.symm)
      simp [List.lookup, hbeq]
    · rw [if_pos (by simp [hk])]
      cases hbeq : ("admin" == kv.1) with
      | true => simp [List.lookup, hbeq]
      | false =>
        simp only [List.lookup, hbeq]
        simpa using ih

lemma deleteUser_lookup_admin (users : List (String × String))
    (u : String) :
    (deleteUser users u).lookup "admin" = users.lookup "admin" := by
  unfold deleteUser
  by_cases hm : u ∈ deletableUsers users
  · rw [if_pos hm]
    have hu : u ≠ "admin" := by
      unfold deletableUsers at hm
      have := List.mem_filter.mp hm
      simpa using this.2
    exact lookup_filter_ne u hu users
  · rw [if_neg hm]

/-- **C10.** The admin-panel delete can only remove usernames other than
`"admin"`: after any sequence of delete operations the credential-store
entry for `"admin"` is exactly what it was before; in particular if an
`"admin"` entry exists beforehand it still exists afterwards. -/
theorem admin_entry_preserved (users : List (String × String))
    (ops : List String) :
    (ops.foldl deleteUser users).lookup "admin" = users.lookup "admin" ∧
    ((users.lookup "admin").isSome = true →
      ((ops.foldl deleteUser users).lookup "admin").isSome = true) := by
  have main : ∀ (l : List String) (us : List (String × String)),
      (l.foldl deleteUser us).lookup "admin" = us.lookup "admin" := by
    intro l
    induction l with
    | nil => intro us; rfl
    | cons op rest ih =>
      intro us
      show (rest.foldl deleteUser (deleteUser us op)).lookup "admin" = _
      rw [ih (deleteUser us op), deleteUser_lookup_admin]
  refine ⟨main ops users, fun h => ?_⟩
  rw [main ops users]
  exact h

/-- Witness for `admin_entry_preserved`: deleting "bob" and then
attempting "admin" leaves the admin entry in place. -/
theorem admin_entry_preserved_witness :
    ((["bob", "admin"].foldl deleteUser
        [("admin", "root"), ("bob", "b")]).lookup "admin").isSome
      = true :=
  (admin_entry_preserved [("admin", "root"), ("bob", "b")]
    ["bob", "admin"]).2 rfl

/-! ## Model training and persistence (`customer.py`, `train_model`
lines 70-86 and the load/retrain dispatch lines 130-141) -/

/-- The hyper-parameters passed to `XGBRegressor` in `customer.py`
line 80. -/
structure Hyper where
  n_estimators : ℕ
  max_depth : ℕ
  learning_rate : ℚ
  random_state : ℕ
deriving DecidableEq

/-- `XGBRegressor(n_estimators=100, max_depth=5, learning_rate=0.1,
random_state=42)`. -/
def xgbHyper : Hyper :=
  { n_estimators := 100, max_depth := 5, learning_rate := 1/10,
    random_state := 42 }

/-- The fixed ordered feature list of `customer.py` lines 71-76. -/
def clvFeatures : List String :=
  ["Age", "Income", "Kidhome", "Teenhome", "Recency", "MntGoldProds",
   "NumDealsPurchases", "AcceptedCmp1", "AcceptedCmp5", "Response",
   "NumCatalogPurchases", "Customer_Tenure", "Tenure_Years",
   "Total_Spending", "Purchase_Frequency", "Profit_Margin"]

/-- Column selection `df[name]` on a derived row. -/
def getColumn (d : DerivedRow) : String → Option ℚ
  | "Age" => d.Age.map (fun z => (z : ℚ))
  | "Income" => d.raw.Income
  | "Kidhome" => d.raw.Kidhome
  | "Teenhome" => d.raw.Teenhome
  | "Recency" => d.raw.Recency
  | "MntGoldProds" => d.raw.MntGoldProds
  | "NumDealsPurchases" => d.raw.NumDealsPurchases
  | "AcceptedCmp1" => d.raw.AcceptedCmp1
  | "AcceptedCmp5" => d.raw.AcceptedCmp5
  | "Response" => d.raw.Response
  | "NumCatalogPurchases" => d.raw.NumCatalogPurchases
  | "Customer_Tenure" => d.Customer_Tenure.map (fun z => (z : ℚ))
  | "Tenure_Years" => d.Tenure_Years
  | "Total_Spending" => some d.Total_Spending
  | "Purchase_Frequency" => some d.Purchase_Frequency
  | "Profit_Margin" => some d.Profit_Margin
  | _ => none

/-- A fitted model, recorded as the inputs of the `model.fit(X, y)` call:
the hyper-parameters, the ordered feature names, the design matrix
`X = df[features]` and the target `y = df["CLV"]`.  The numerical fit
itself is an external library call. -/
structure FittedModel where
  hyper : Hyper
  features : List String
  X : List (List (Option ℚ))
  y : List (Option ℚ)
deriving DecidableEq

/-- `train_model` (`customer.py` lines 70-86): fit on the fixed feature
list against the derived CLV column; both artifacts are then dumped. -/
def train_model (df : List DerivedRow) : FittedModel × List String :=
  (⟨xgbHyper, clvFeatures,
    df.map (fun d => clvFeatures.map (getColumn d)),
    df.map (fun d => d.CLV)⟩, clvFeatures)

/-- The two persisted artifact files (`xgb_model.pkl`, `features.pkl`);
`none` means the file does not exist. -/
structure ArtifactStore where
  model : Option FittedModel
  features : Option (List String)
deriving DecidableEq

/-- The load/retrain dispatch of `customer.py` lines 130-141: retrain on
request; train when either artifact file is absent; otherwise load both
artifacts unchanged.  The final component records whether training ran
(and hence whether the artifacts were overwritten). -/
def loadOrTrain (retrainClicked : Bool) (store : ArtifactStore)
    (df : List DerivedRow) :
    FittedModel × List String × ArtifactStore × Bool :=
  match retrainClicked, store.model, store.features with
  | true, _, _ =>
    let (m, f) := train_model df
    (m, f, ⟨some m, some f⟩, true)
  | false, some m, some f => (m, f, store, false)
  | false, _, _ =>
    let (m, f) := train_model df
    (m, f, ⟨some m, some f⟩, true)

/-- **C5.** The artifacts are loaded unchanged iff retraining was not
requested and both artifact files exist; in every other case training
runs, fitting the regressor with exactly 100 trees, depth 5, learning
rate 0.1 and seed 42 on the fixed 16-name feature list against the
derived CLV target, and both artifacts are overwritten with the new
values. -/
theorem model_persistence (retrain : Bool) (store : ArtifactStore)
    (df : List DerivedRow) :
    ((loadOrTrain retrain store df).2.2.2 = false ↔
      retrain = false ∧ store.model ≠ none ∧ store.features ≠ none) ∧
    ((loadOrTrain retrain store df).2.2.2 = false →
      (loadOrTrain retrain store df).2.2.1 = store ∧
      some (loadOrTrain retrain store df).1 = store.model ∧
      some (loadOrTrain retrain store df).2.1 = store.features) ∧
    ((loadOrTrain retrain store df).2.2.2 = true →
      (loadOrTrain retrain store df).1 = (train_model df).1 ∧
      (loadOrTrain retrain store df).1.hyper = ⟨100, 5, 1/10, 42⟩ ∧
      (loadOrTrain retrain store df).1.features = clvFeatures ∧
      clvFeatures.length = 16 ∧
      (loadOrTrain retrain store df).1.X
        = df.map (fun d => clvFeatures.map (getColumn d)) ∧
      (loadOrTrain retrain store df).1.y = df.map (fun d => d.CLV) ∧
      (loadOrTrain retrain store df).2.2.1
        = ⟨some (loadOrTrain retrain store df).1,
           some (loadOrTrain retrain store df).2.1⟩) := by
  obtain ⟨sm, sf⟩ := store
  cases retrain with
  | true =>
    refine ⟨by simp [loadOrTrain], by simp [loadOrTrain], fun _ => ?_⟩
    exact ⟨rfl, rfl, rfl, rfl, rfl, rfl, rfl⟩
  | false =>
    cases sm with
    | none =>
      refine ⟨by simp [loadOrTrain], by simp [loadOrTrain], fun _ => ?_⟩
      exact ⟨rfl, rfl, rfl, rfl, rfl, rfl, rfl⟩
    | some m =>
      cases sf with
      | none =>
        refine ⟨by simp [loadOrTrain], by simp [loadOrTrain], fun _ => ?_⟩
        exact ⟨rfl, rfl, rfl, rfl, rfl, rfl, rfl⟩
      | some f =>
        refine ⟨by simp [loadOrTrain], fun _ => ⟨rfl, rfl, rfl⟩,
          by simp [loadOrTrain]⟩

/-- Witness for `model_persistence`: with both artifacts present and no
retrain request the store is untouched; with an empty store training runs
with the fixed hyper-parameters. -/
theorem model_persistence_witness :
    (loadOrTrain false ⟨some (train_model []).1, some clvFeatures⟩
        []).2.2.1 = ⟨some (train_model []).1, some clvFeatures⟩ ∧
    (loadOrTrain true ⟨none, none⟩ []).1.hyper = ⟨100, 5, 1/10, 42⟩ :=
  ⟨((model_persistence false
      ⟨some (train_model []).1, some clvFeatures⟩ []).2.1 rfl).1,
   ((model_persistence true ⟨none, none⟩ []).2.2 rfl).2.1⟩

/-! ## The single-customer input form (`customer.py`, `user_input`
lines 88-128 and the manual CLV of lines 154-158) -/

/-- The values collected by the sidebar form (`customer.py`
lines 91-102): only these twelve fields exist in the form. -/
structure FormInput where
  Age : ℚ
  Income : ℚ
  Kidhome : ℚ
  Teenhome : ℚ
  Recency : ℚ
  MntGoldProds : ℚ
  NumDealsPurchases : ℚ
  AcceptedCmp1 : ℚ
  AcceptedCmp5 : ℚ
  Response : ℚ
  NumCatalogPurchases : ℚ
  Customer_Tenure : ℤ
deriving DecidableEq

/-- The sixteen-column single-row frame built by `user_input`
(`customer.py` lines 109-128). -/
structure FormRow where
  Age : ℚ
  Income : ℚ
  Kidhome : ℚ
  Teenhome : ℚ
  Recency : ℚ
  MntGoldProds : ℚ
  NumDealsPurchases : ℚ
  AcceptedCmp1 : ℚ
  AcceptedCmp5 : ℚ
  Response : ℚ
  NumCatalogPurchases : ℚ
  Customer_Tenure : ℤ
  Tenure_Years : ℚ
  Total_Spending : ℚ
  Purchase_Frequency : ℚ
  Profit_Margin : ℚ
deriving DecidableEq

/-- `user_input` derivations (`customer.py` lines 104-107):
`Tenure_Years = Customer_Tenure / 365`, `Total_Spending = MntGoldProds`,
`Purchase_Frequency = NumDealsPurchases + NumCatalogPurchases`,
`Profit_Margin = Total_Spending * 0.3`. -/
def user_input (f : FormInput) : FormRow :=
  let tenureYears : ℚ := (f.Customer_Tenure : ℚ) / 365
  let totalSpending : ℚ := f.MntGoldProds
  let purchaseFrequency : ℚ := f.NumDealsPurchases + f.NumCatalogPurchases
  let profitMargin : ℚ := totalSpending * (3/10)
  { Age := f.Age
    Income := f.Income
    Kidhome := f.Kidhome
    Teenhome := f.Teenhome
    Recency := f.Recency
    MntGoldProds := f.MntGoldProds
    NumDealsPurchases := f.NumDealsPurchases
    AcceptedCmp1 := f.AcceptedCmp1
    AcceptedCmp5 := f.AcceptedCmp5
    Response := f.Response
    NumCatalogPurchases := f.NumCatalogPurchases
    Customer_Tenure := f.Customer_Tenure
    Tenure_Years := tenureYears
    Total_Spending := totalSpending
    Purchase_Frequency := purchaseFrequency
    Profit_Margin := profitMargin }

/-- The manual CLV shown on the prediction page (`customer.py`
lines 154-157): `Profit_Margin * Purchase_Frequency * Tenure_Years`,
not rounded. -/
def manual_clv (row : FormRow) : ℚ :=
  row.Profit_Margin * row.Purchase_Frequency * row.Tenure_Years

/-- Modelled from the spec (§3, §8): the lifetime-value formula applied
to the full column set — `round(0.3 * (sum of the six spend columns) *
(sum of the four purchase-count columns) * tenure_years, 2)`.  Used only
as the comparison point the claim refers to; the form itself collects no
spend columns besides `MntGoldProds` and no purchase channels besides
deals and catalog. -/
def specFullCLV (wines fruits meat fish sweet gold : ℚ)
    (deals web catalog stores : ℚ) (tenureYears : ℚ) : ℚ :=
  round2 ((3/10) * (wines + fruits + meat + fish + sweet + gold) *
    (deals + web + catalog + stores) * tenureYears)

/-- The counterexample form input: zero gold spend, zero deal and catalog
purchases, zero tenure. -/
def zeroForm : FormInput :=
  { Age := 40, Income := 50000, Kidhome := 0, Teenhome := 0, Recency := 10
    MntGoldProds := 0, NumDealsPurchases := 0, AcceptedCmp1 := 0
    AcceptedCmp5 := 0, Response := 0, NumCatalogPurchases := 0
    Customer_Tenure := 0 }

/-- **C9 counterexample.**  A form input with nonzero spend in another
category (wines = 100) and a nonzero other purchase channel (web = 2) for
which the manual CLV shown equals the §3 formula applied to the full
column set (both are 0, the tenure being 0) — refuting the claimed "for
any form input … differs". -/
theorem form_clv_not_always_different :
    (100 : ℚ) ≠ 0 ∧ (2 : ℚ) ≠ 0 ∧
    manual_clv (user_input zeroForm)
      = specFullCLV 100 0 0 0 0 zeroForm.MntGoldProds
          zeroForm.NumDealsPurchases 2 zeroForm.NumCatalogPurchases 0
          ((zeroForm.Customer_Tenure : ℚ) / 365) := by
  refine ⟨by norm_num, by norm_num, ?_⟩
  norm_num [manual_clv, user_input, zeroForm, specFullCLV, round2,
    roundHalfEven]

/-- **C9 (amended).** The form's derived `Total_Spending` is the gold
amount alone and its `Purchase_Frequency` is deals + catalog only;
`Profit_Margin` and the manual CLV are computed from these reduced
values.  Consequently the manual CLV shown *can* differ from the §3
formula applied to the full column set when other categories or channels
are nonzero (witnessed below), though the two coincide on degenerate
inputs such as zero tenure. -/
theorem form_reduced_derivation (f : FormInput) :
    (user_input f).Total_Spending = f.MntGoldProds ∧
    (user_input f).Purchase_Frequency
      = f.NumDealsPurchases + f.NumCatalogPurchases ∧
    (user_input f).Profit_Margin = f.MntGoldProds * (3/10) ∧
    (user_input f).Tenure_Years = (f.Customer_Tenure : ℚ) / 365 ∧
    manual_clv (user_input f)
      = f.MntGoldProds * (3/10) *
          (f.NumDealsPurchases + f.NumCatalogPurchases) *
          ((f.Customer_Tenure : ℚ) / 365) ∧
    (∃ (g : FormInput) (wines fruits meat fish sweet web stores : ℚ),
      wines ≠ 0 ∧ web ≠ 0 ∧
      manual_clv (user_input g)
        ≠ specFullCLV wines fruits meat fish sweet g.MntGoldProds
            g.NumDealsPurchases web g.NumCatalogPurchases stores
            ((g.Customer_Tenure : ℚ) / 365)) := by
  refine ⟨rfl, rfl, rfl, rfl, rfl, ?_⟩
  refine ⟨{ Age := 40, Income := 50000, Kidhome := 0, Teenhome := 0
            Recency := 10, MntGoldProds := 10, NumDealsPurchases := 1
            AcceptedCmp1 := 0, AcceptedCmp5 := 0, Response := 0
            NumCatalogPurchases := 0, Customer_Tenure := 365 },
          10, 0, 0, 0, 0, 1, 0, by norm_num, by norm_num, ?_⟩
  norm_num [manual_clv, user_input, specFullCLV, round2, roundHalfEven]

/-! ## Association-rule mining (`marketbasket.py`, `generate_rules`,
lines 26-37)

The basket matrix is the list of invoices, each the finite set of item
identifiers it contains.  `mlxtend.apriori` returns every itemset whose
support reaches the minimum; `mlxtend.association_rules` splits each
frequent itemset into every nonempty antecedent/proper-subset pair and
keeps the splits whose confidence reaches the threshold, with
`support = support(antecedent ∪ consequent)`,
`confidence = support(antecedent ∪ consequent) / support(antecedent)` and
`lift = confidence / support(consequent)`. -/

/-- All items occurring in the basket matrix (its columns). -/
def itemUniverse (basket : List (Finset ℕ)) : Finset ℕ :=
  basket.foldr (· ∪ ·) ∅

/-- The number of invoices containing every item of `s`. -/
def countContaining (basket : List (Finset ℕ)) (s : Finset ℕ) : ℕ :=
  (basket.filter (fun t => decide (s ⊆ t))).length

/-- Support of an itemset: fraction of invoices containing it. -/
def support (basket : List (Finset ℕ)) (s : Finset ℕ) : ℚ :=
  (countContaining basket s : ℚ) / (basket.length : ℚ)

/-- Confidence of the rule `a → c`. -/
def confidence (basket : List (Finset ℕ)) (a c : Finset ℕ) : ℚ :=
  support basket (a ∪ c) / support basket a

/-- Lift of the rule `a → c`. -/
def liftMetric (basket : List (Finset ℕ)) (a c : Finset ℕ) : ℚ :=
  confidence basket a c / support basket c

/-- One row of the rules table: antecedent and consequent itemsets and
the three metrics. -/
structure AssocRule where
  antecedents : Finset ℕ
  consequents : Finset ℕ
  support : ℚ
  confidence : ℚ
  lift : ℚ
deriving DecidableEq

/-- `apriori(basket, min_support=0.02)`: every nonempty itemset over the
basket's columns whose support is at least 0.02 (the itemset table is
modelled as the set of its rows). -/
def apriori (basket : List (Finset ℕ)) : Finset (Finset ℕ) :=
  (itemUniverse basket).powerset.filter
    (fun s => s.Nonempty ∧ 2/100 ≤ support basket s)

/-- `association_rules(freq_items, metric="confidence",
min_threshold=0.4)`: split every frequent itemset into each nonempty
proper antecedent subset and its complement, keeping splits with
confidence at least 0.4 (the rules table is modelled as the set of its
rows; the splitting produces no duplicate rows). -/
def association_rules (basket : List (Finset ℕ))
    (freq : Finset (Finset ℕ)) : Finset AssocRule :=
  freq.biUnion (fun s =>
    (s.powerset.filter
        (fun a => a.Nonempty ∧ a ≠ s ∧
          2/5 ≤ confidence basket a (s \ a))).image
      (fun a => ⟨a, s \ a, support basket s, confidence basket a (s \ a),
                 liftMetric basket a (s \ a)⟩))

/-- `generate_rules` (`marketbasket.py` lines 26-37): mine with minimum
support 0.02 and confidence threshold 0.4, then keep only
singleton → singleton rules with support ≥ 0.02, confidence ≥ 0.4 and
lift ≥ 1.0. -/
def generate_rules (basket : List (Finset ℕ)) : Finset AssocRule :=
  (association_rules basket (apriori basket)).filter
    (fun r => r.antecedents.card = 1 ∧ r.consequents.card = 1 ∧
      2/100 ≤ r.support ∧ 2/5 ≤ r.confidence ∧ 1 ≤ r.lift)

lemma mem_apriori {basket : List (Finset ℕ)} {s : Finset ℕ} :
    s ∈ apriori basket ↔
      s ⊆ itemUniverse basket ∧ s.Nonempty ∧
        2/100 ≤ support basket s := by
  unfold apriori
  rw [Finset.mem_filter, Finset.mem_powerset]

lemma mem_association_rules {basket : List (Finset ℕ)}
    {freq : Finset (Finset ℕ)} {r : AssocRule} :
    r ∈ association_rules basket freq ↔
      ∃ s ∈ freq, ∃ a, a ⊆ s ∧ a.Nonempty ∧ a ≠ s ∧
        2/5 ≤ confidence basket a (s \ a) ∧
        r = ⟨a, s \ a, support basket s, confidence basket a (s \ a),
             liftMetric basket a (s \ a)⟩ := by
  unfold association_rules
  simp only [Finset.mem_biUnion, Finset.mem_image, Finset.mem_filter,
    Finset.mem_powerset]
  constructor
  · rintro ⟨s, hs, a, ⟨hsub, hne, hnes, hconf⟩, hr⟩
    exact ⟨s, hs, a, hsub, hne, hnes, hconf, hr.symm⟩
  · rintro ⟨s, hs, a, hsub, hne, hnes, hconf, hr⟩
    exact ⟨s, hs, a, ⟨hsub, hne, hnes, hconf⟩, hr.symm⟩

lemma pair_sdiff_left {x y : ℕ} (hxy : x ≠ y) :
    ({x, y} : Finset ℕ) \ {x} = {y} := by
  ext z
  simp only [Finset.mem_sdiff, Finset.mem_insert, Finset.mem_singleton]
  constructor
  · rintro ⟨h1 | h1, h2⟩
    · exact absurd h1 h2
    · exact h1
  · rintro rfl
    exact ⟨Or.inr rfl, fun h => hxy h.symm⟩

/-- **C3.** An association rule is in the output of `generate_rules` iff
its antecedent and consequent are singletons `{x}` and `{y}` of distinct
basket items, its metrics are the true support / confidence / lift of
`x → y` in the basket, and support ≥ 0.02, confidence ≥ 0.4 and
lift ≥ 1.0 all hold. -/
theorem generate_rules_spec (basket : List (Finset ℕ)) (r : AssocRule) :
    r ∈ generate_rules basket ↔
      ∃ x y, x ≠ y ∧ x ∈ itemUniverse basket ∧ y ∈ itemUniverse basket ∧
        r = ⟨{x}, {y}, support basket {x, y}, confidence basket {x} {y},
             liftMetric basket {x} {y}⟩ ∧
        2/100 ≤ support basket {x, y} ∧
        2/5 ≤ confidence basket {x} {y} ∧
        1 ≤ liftMetric basket {x} {y} := by
  unfold generate_rules
  rw [Finset.mem_filter]
  constructor
  · rintro ⟨hmem, hcard1, hcard2, hsupp, hconf, hlift⟩
    rcases mem_association_rules.mp hmem with
      ⟨s, hs, a, hsub, hne, hnes, hconfas, hr⟩
    rcases mem_apriori.mp hs with ⟨suniv, _, _⟩
    rw [hr] at hcard1 hcard2 hsupp hconf hlift
    dsimp only at hcard1 hcard2 hsupp hconf hlift
    rcases Finset.card_eq_one.mp hcard1 with ⟨x, rfl⟩
    rcases Finset.card_eq_one.mp hcard2 with ⟨y, hy⟩
    have hyx : y ∈ s \ {x} := by
      rw [hy]; exact Finset.mem_singleton_self y
    have hxy : x ≠ y := by
      intro h
      exact (Finset.mem_sdiff.mp hyx).2 (h ▸ Finset.mem_singleton_self x)
    have hsplit : s = {x, y} := by
      have h2 := Finset.union_sdiff_of_subset hsub
      rw [hy] at h2
      rw [show ({x, y} : Finset ℕ) = {x} ∪ {y} from Finset.insert_eq x {y}]
      exact h2.symm
    subst hsplit
    rw [hy] at hconf hlift hr
    exact ⟨x, y, hxy,
      suniv (Finset.mem_insert_self x {y}),
      suniv (Finset.mem_insert_of_mem (Finset.mem_singleton_self y)),
      hr, hsupp, hconf, hlift⟩
  · rintro ⟨x, y, hxy, hxu, hyu, hr, hsupp, hconf, hlift⟩
    have hsd : ({x, y} : Finset ℕ) \ {x} = {y} := pair_sdiff_left hxy
    have hmem : r ∈ association_rules basket (apriori basket) := by
      rw [mem_association_rules]
      refine ⟨{x, y}, ?_, {x}, ?_, Finset.singleton_nonempty x, ?_, ?_, ?_⟩
      · exact mem_apriori.mpr
          ⟨Finset.insert_subset hxu (Finset.singleton_subset_iff.mpr hyu),
           Finset.insert_nonempty x {y}, hsupp⟩
      · exact Finset.singleton_subset_iff.mpr (Finset.mem_insert_self x {y})
      · intro h
        have hyin : y ∈ ({x} : Finset ℕ) := by
          rw [h]
          exact Finset.mem_insert_of_mem (Finset.mem_singleton_self y)
        exact hxy (Finset.mem_singleton.mp hyin).symm
      · rw [hsd]
        exact hconf
      · rw [hsd, hr]
    refine ⟨hmem, ?_⟩
    rw [hr]
    exact ⟨Finset.card_singleton x, Finset.card_singleton y, hsupp, hconf,
      hlift⟩

end MBA
